import Mathlib

/-!
Verification of the FedEx outbound request gateway of shiptrackguru
(src/server/services/fedex.ts), embedded shallowly: JavaScript optional
chaining becomes Option, the mutable service fields become explicit state
records, Date.now together with awaited setTimeout become a deterministic
mock clock threaded through the worker loop, and the scripted upstream
responses stand for axios results.  Machine time is modelled as Nat
milliseconds.
-/

set_option autoImplicit false

namespace FedEx

/-- JavaScript truthiness of a possibly-absent string: undefined and the
empty string are falsy. -/
def jsTruthy : Option String → Bool
  | some s => !s.isEmpty
  | none => false

/-- Substring test, mirroring JavaScript String.prototype.includes. -/
def strIncludes (haystack needle : String) : Bool :=
  decide (List.IsInfix needle.toList haystack.toList)

/-- A scanLocation object of the FedEx response; every field may be absent. -/
structure ScanLocation where
  city : Option String
  stateOrProvinceCode : Option String
  countryCode : Option String
deriving DecidableEq

/-- An entry of the dateAndTimes list of the FedEx response. -/
structure DateAndTime where
  type : String
  dateTime : Option String
deriving DecidableEq

/-- A scanEvents entry of the FedEx response. -/
structure ScanEvent where
  date : Option String
  scanLocation : Option ScanLocation
  eventDescription : Option String
deriving DecidableEq

/-- A packageDetails entry of the FedEx response. -/
structure PackageDetail where
  trackingNumber : Option String
deriving DecidableEq

/-- The latestStatusDetail object of the FedEx response. -/
structure StatusDetail where
  code : Option String
  scanLocation : Option ScanLocation
deriving DecidableEq

/-- One trackResults entry of the FedEx response; all fields optional. -/
structure TrackResult where
  latestStatusDetail : Option StatusDetail
  dateAndTimes : Option (List DateAndTime)
  scanEvents : Option (List ScanEvent)
  associatedTrackingNumbers : Option (List String)
  packageDetails : Option (List PackageDetail)
deriving DecidableEq

/-- One completeTrackResults entry of the FedEx response. -/
structure CompleteTrackResult where
  trackResults : Option (List TrackResult)
deriving DecidableEq

/-- The output object of the FedEx response. -/
structure FedExOutput where
  completeTrackResults : Option (List CompleteTrackResult)
deriving DecidableEq

/-- The whole FedEx tracking response body (response.data). -/
structure ResponseData where
  output : Option FedExOutput
deriving DecidableEq

/-- A normalized tracking event (element of FedExTrackingInfo.events). -/
structure TrackingEvent where
  timestamp : Option String
  location : String
  status : Option String
  description : Option String
deriving DecidableEq

/-- The normalized tracking result (interface FedExTrackingInfo). -/
structure FedExTrackingInfo where
  trackingNumber : String
  status : String
  estimatedDelivery : Option String
  lastLocation : String
  events : List TrackingEvent
  childTrackingNumbers : List String
  rawApiResponse : ResponseData
deriving DecidableEq

/-- FedExService.formatLocation: absent location yields the empty string;
present parts are joined by a comma, JS truthiness dropping absent and
empty components. -/
def formatLocation : Option ScanLocation → String
  | none => ""
  | some location =>
    let parts := ([location.city, location.stateOrProvinceCode,
      location.countryCode].filterMap id).filter (fun s => !s.isEmpty)
    String.intercalate ", " parts

/-- The status-code translation table of FedExService.mapFedExStatus. -/
def statusMap : List (String × String) :=
  [("IT", "in_transit"), ("OD", "out_for_delivery"), ("DL", "delivered"),
   ("DE", "exception"), ("PU", "picked_up"), ("OC", "picked_up"),
   ("AR", "in_transit"), ("DP", "in_transit"), ("PX", "picked_up")]

/-- FedExService.mapFedExStatus: unknown or absent codes map to pending. -/
def mapFedExStatus (fedexStatus : Option String) : String :=
  match fedexStatus.bind (fun c => statusMap.lookup c) with
  | some s => s
  | none => "pending"

/-- Appending with the first-occurrence dedup of a JS Set / includes check. -/
def pushUnique (acc : List String) (x : String) : List String :=
  if acc.contains x then acc else acc ++ [x]

/-- Array.from(new Set(l)): dedup keeping first occurrences. -/
def setDedup (l : List String) : List String :=
  l.foldl pushUnique []

/-- The per-trackResult accumulation step of
FedExService.extractChildTrackingNumbers: associated numbers are pushed
unconditionally, packageDetails numbers only if truthy and not yet seen. -/
def collectChildNumbers (acc : List String) (tr : TrackResult) : List String :=
  let acc1 := acc ++ tr.associatedTrackingNumbers.getD []
  (tr.packageDetails.getD []).foldl
    (fun a pkg =>
      match pkg.trackingNumber with
      | some t => if !t.isEmpty && !a.contains t then a ++ [t] else a
      | none => a)
    acc1

/-- FedExService.extractChildTrackingNumbers. -/
def extractChildTrackingNumbers (data : ResponseData) : List String :=
  let trackResults :=
    (((data.output.bind (fun o => o.completeTrackResults)).bind
      (fun l => l.head?)).bind (fun c => c.trackResults)).getD []
  setDedup (trackResults.foldl collectChildNumbers [])

/-- FedExService.parseTrackingResponse: returns none (JS null) when the
first completeTrackResults entry or the first trackResults entry is
absent, and otherwise builds the normalized result with defaults for
every absent nested field. -/
def parseTrackingResponse (trackingNumber : String) (data : ResponseData) :
    Option FedExTrackingInfo :=
  match (data.output.bind (fun o => o.completeTrackResults)).bind
      (fun l => l.head?) with
  | none => none
  | some trackingResult =>
    match trackingResult.trackResults.bind (fun l => l.head?) with
    | none => none
    | some latestStatus =>
      some
        { trackingNumber := trackingNumber
          status := mapFedExStatus
            (latestStatus.latestStatusDetail.bind (fun d => d.code))
          estimatedDelivery :=
            ((latestStatus.dateAndTimes.getD []).find?
              (fun d => d.type == "ESTIMATED_DELIVERY")).bind
              (fun d => d.dateTime)
          lastLocation := formatLocation
            (latestStatus.latestStatusDetail.bind (fun d => d.scanLocation))
          events := (latestStatus.scanEvents.getD []).map
            (fun event =>
              { timestamp := event.date
                location := formatLocation event.scanLocation
                status := event.eventDescription
                description := event.eventDescription })
          childTrackingNumbers := extractChildTrackingNumbers data
          rawApiResponse := data }

/-- The shape of a caught JS error as the service inspects it:
error.response?.status, error.code, error.message. -/
structure JsError where
  status : Option Nat
  code : Option String
  message : String
deriving DecidableEq

/-- FedExService.isRateLimitError. -/
def isRateLimitError (e : JsError) : Bool :=
  e.status == some 429
    || strIncludes e.message "rate limit"
    || strIncludes e.message "429"

/-- The error getAccessToken throws on any authentication failure. -/
def authFailureError : JsError :=
  { status := none, code := none,
    message := "Failed to authenticate with FedEx API" }

/-- The error getAccessToken throws when credentials are absent. -/
def credentialsError : JsError :=
  { status := none, code := none,
    message := "FedEx API credentials not configured" }

/-- An axios timeout (ECONNABORTED) on the tracking call. -/
def timeoutError : JsError :=
  { status := none, code := some "ECONNABORTED",
    message := "timeout of 30000ms exceeded" }

/-- An HTTP 429 rejection of the tracking call. -/
def rateLimit429 : JsError :=
  { status := some 429, code := none,
    message := "Request failed with status code 429" }

/-- The outcome of one attempted upstream tracking call: either a 2xx
response body, or a thrown error (HTTP failure, timeout, or an error
propagated out of getAccessToken). -/
inductive UpstreamOutcome where
  | httpOk (data : ResponseData)
  | httpError (e : JsError)
deriving DecidableEq

/-- FedExService.fetchTrackingInfo: a 2xx response is parsed; a thrown
rate-limit error is rethrown for the queue handler; every other error —
ECONNABORTED timeouts and all remaining failures, authentication
failures included — is swallowed and yields null. -/
def fetchTrackingInfo (trackingNumber : String) (outcome : UpstreamOutcome) :
    Except JsError (Option FedExTrackingInfo) :=
  match outcome with
  | .httpOk data => .ok (parseTrackingResponse trackingNumber data)
  | .httpError e =>
    if isRateLimitError e then .error e
    else if e.code == some "ECONNABORTED" then .ok none
    else .ok none

/-- The token cache fields of the service: cachedToken and tokenExpiry. -/
structure TokenCache where
  cachedToken : Option String
  tokenExpiry : Nat
deriving DecidableEq

/-- The outcome of one call to the OAuth endpoint: a response carrying
access_token (possibly absent), or a thrown transport error. -/
inductive AuthOutcome where
  | ok (accessToken : Option String)
  | httpError (e : JsError)
deriving DecidableEq

deriving instance DecidableEq for Except

/-- Result of one getAccessToken invocation: the returned token or thrown
error, the updated cache, and whether the auth endpoint was called. -/
structure AuthResult where
  token : Except JsError String
  cache : TokenCache
  authEndpointCalled : Bool
deriving DecidableEq

/-- Tokens are cached for 50 minutes (issued lifetime 60 minutes minus a
safety margin), in milliseconds. -/
def tokenCacheDuration : Nat := 50 * 60 * 1000

/-- FedExService.getAccessToken: returns the cached token while
now < tokenExpiry; throws when unconfigured; otherwise calls the auth
endpoint, caching a received token with expiry now + 50 minutes, and
mapping every failure (transport error or missing access_token) to the
single authentication failure error. -/
def getAccessToken (configured : Bool) (now : Nat) (cache : TokenCache)
    (outcome : AuthOutcome) : AuthResult :=
  if jsTruthy cache.cachedToken && decide (now < cache.tokenExpiry) then
    { token := .ok (cache.cachedToken.getD ""), cache := cache,
      authEndpointCalled := false }
  else if !configured then
    { token := .error credentialsError, cache := cache,
      authEndpointCalled := false }
  else
    match outcome with
    | .ok accessToken =>
      if jsTruthy accessToken then
        { token := .ok (accessToken.getD "")
          cache := { cachedToken := accessToken,
                     tokenExpiry := now + tokenCacheDuration }
          authEndpointCalled := true }
      else
        { token := .error authFailureError, cache := cache,
          authEndpointCalled := true }
    | .httpError _ =>
      { token := .error authFailureError, cache := cache,
        authEndpointCalled := true }

/-- Retry configuration of the service: maxRetries. -/
def maxRetries : Nat := 3

/-- Retry configuration of the service: retryDelays (30s, 1m, 2m). -/
def retryDelays : List Nat := [30000, 60000, 120000]

/-- Rate limiting configuration: minRequestInterval (2s). -/
def minRequestInterval : Nat := 2000

/-- A queued lookup (interface QueuedRequest): the resolve/reject pair is
modelled by a request identifier that settlement trace events refer to. -/
structure QueuedRequest where
  trackingNumber : String
  requestId : Nat
  retryCount : Nat
  addedAt : Nat
deriving DecidableEq

/-- How a queued request's promise is settled: resolve(value) carries the
parsed result or null, reject(error) carries the error message. -/
inductive Settlement where
  | resolved (value : Option FedExTrackingInfo)
  | rejected (message : String)
deriving DecidableEq

/-- Observable events of a worker-loop run, each stamped with the mock
clock: the start of an upstream tracking call, the settlement of a
request's promise, and the re-enqueue of a request at the queue tail. -/
inductive TraceEvent where
  | upstreamCall (requestId : Nat) (trackingNumber : String)
      (retryCount : Nat) (time : Nat)
  | settled (requestId : Nat) (outcome : Settlement) (time : Nat)
  | requeued (requestId : Nat) (newRetryCount : Nat) (time : Nat)
deriving DecidableEq

/-- The mutable gateway fields the worker loop touches, plus the mock
clock: requestQueue, isProcessingQueue, lastRequestTime, and now
(Date.now of the simulation). -/
structure GwState where
  requestQueue : List QueuedRequest
  isProcessingQueue : Bool
  lastRequestTime : Nat
  now : Nat
deriving DecidableEq

/-- FedExService.rateLimit with the mock clock: when less than
minRequestInterval has passed since lastRequestTime the worker sleeps
the difference (advancing now); lastRequestTime is then set to now. -/
def rateLimit (st : GwState) : GwState :=
  let timeSinceLastRequest := st.now - st.lastRequestTime
  if timeSinceLastRequest < minRequestInterval then
    let waitTime := minRequestInterval - timeSinceLastRequest
    { st with now := st.now + waitTime, lastRequestTime := st.now + waitTime }
  else
    { st with lastRequestTime := st.now }

/-- A script assigns to every tracking number and retryCount the outcome
of the upstream call attempted for it (the mock axios). -/
def UpstreamScript : Type := String → Nat → UpstreamOutcome

/-- One iteration of the while loop of FedExService.processQueue on a
non-empty queue: shift the head request, apply rate limiting, attempt
the upstream call, and either resolve, reject, or — on a rate-limit
error with retries left — sleep the backoff delay and push the request
back at the tail with retryCount incremented. -/
def stepQueue (script : UpstreamScript) (st : GwState) :
    GwState × List TraceEvent :=
  match st.requestQueue with
  | [] => (st, [])
  | request :: rest =>
    let st1 := rateLimit { st with requestQueue := rest }
    let callEv := TraceEvent.upstreamCall request.requestId
      request.trackingNumber request.retryCount st1.now
    match fetchTrackingInfo request.trackingNumber
        (script request.trackingNumber request.retryCount) with
    | .ok result =>
      (st1, [callEv,
        TraceEvent.settled request.requestId (.resolved result) st1.now])
    | .error e =>
      if isRateLimitError e then
        if request.retryCount < maxRetries then
          let delay := retryDelays.getD request.retryCount 0
          let st2 := { st1 with
            now := st1.now + delay
            requestQueue := rest ++
              [{ request with retryCount := request.retryCount + 1 }] }
          (st2, [callEv, TraceEvent.requeued request.requestId
            (request.retryCount + 1) st2.now])
        else
          (st1, [callEv, TraceEvent.settled request.requestId
            (.rejected "Rate limit exceeded after max retries") st1.now])
      else
        (st1, [callEv,
          TraceEvent.settled request.requestId (.rejected e.message) st1.now])

/-- The while loop of FedExService.processQueue, fuel-bounded: iterate
stepQueue until the queue is empty, concatenating the traces. -/
def runQueue (script : UpstreamScript) : Nat → GwState → GwState × List TraceEvent
  | 0, st => (st, [])
  | fuel + 1, st =>
    match st.requestQueue with
    | [] => (st, [])
    | _ :: _ =>
      let r1 := stepQueue script st
      let r2 := runQueue script fuel r1.1
      (r2.1, r1.2 ++ r2.2)

/-- FedExService.processQueue: a no-op when isProcessingQueue is already
true; otherwise sets the flag, drains the queue, and clears the flag. -/
def processQueue (script : UpstreamScript) (fuel : Nat) (st : GwState) :
    GwState × List TraceEvent :=
  if st.isProcessingQueue then (st, [])
  else
    let r := runQueue script fuel { st with isProcessingQueue := true }
    ({ r.1 with isProcessingQueue := false }, r.2)

/-- The credential configuration read from the environment. -/
structure FedExConfig where
  apiKey : Option String
  apiSecret : Option String
deriving DecidableEq

/-- FedExService.isConfigured: both credentials present and non-empty
(JS truthiness). -/
def isConfigured (cfg : FedExConfig) : Bool :=
  jsTruthy cfg.apiKey && jsTruthy cfg.apiSecret

/-- What a getTrackingInfo call does immediately: resolve with null right
away (unconfigured service), or enqueue a request whose promise the
worker loop will settle. -/
inductive SubmitResult where
  | immediateNull
  | enqueued (requestId : Nat)
deriving DecidableEq

/-- FedExService.getTrackingInfo: when unconfigured, resolves null at once
without touching the queue; otherwise pushes a fresh request (retryCount
0) at the tail and starts processQueue unless it is already running. -/
def getTrackingInfo (cfg : FedExConfig) (script : UpstreamScript) (fuel : Nat)
    (trackingNumber : String) (requestId : Nat) (st : GwState) :
    SubmitResult × GwState × List TraceEvent :=
  if !isConfigured cfg then (.immediateNull, st, [])
  else
    let st1 := { st with requestQueue := st.requestQueue ++
      [{ trackingNumber := trackingNumber, requestId := requestId,
         retryCount := 0, addedAt := st.now }] }
    if !st1.isProcessingQueue then
      let r := processQueue script fuel st1
      (.enqueued requestId, r.1, r.2)
    else
      (.enqueued requestId, st1, [])

/-- FedExService.getQueueStatus. -/
def getQueueStatus (st : GwState) : Nat × Bool :=
  (st.requestQueue.length, st.isProcessingQueue)

/-- FedExService.clearQueue: empties the queue without settling the
pending requests. -/
def clearQueue (st : GwState) : GwState :=
  { st with requestQueue := [] }

/-- Times of the upstream-call events of a trace, in order. -/
def callTimes (evs : List TraceEvent) : List Nat :=
  evs.filterMap (fun ev =>
    match ev with
    | .upstreamCall _ _ _ t => some t
    | _ => none)

/-- Times of the upstream-call events of a given request, in order. -/
def callTimesOf (rid : Nat) (evs : List TraceEvent) : List Nat :=
  evs.filterMap (fun ev =>
    match ev with
    | .upstreamCall r _ _ t => if r = rid then some t else none
    | _ => none)

/-- The settlements recorded for a given request, in order. -/
def settlementsOf (rid : Nat) (evs : List TraceEvent) : List Settlement :=
  evs.filterMap (fun ev =>
    match ev with
    | .settled r s _ => if r = rid then some s else none
    | _ => none)

/-- Times of the re-enqueue events of a given request, in order. -/
def requeueTimesOf (rid : Nat) (evs : List TraceEvent) : List Nat :=
  evs.filterMap (fun ev =>
    match ev with
    | .requeued r _ t => if r = rid then some t else none
    | _ => none)

/-- The phase of one worker loop: between calls, or with an upstream call
in flight for a request. -/
inductive WorkerPhase where
  | betweenCalls
  | inFlight (request : QueuedRequest)
deriving DecidableEq

/-- The interleaving model used for the single-flight property: the shared
queue and flag, plus the list of currently running worker loops (the
code intends at most one; the model lets steps try to create more, and
the guard is what prevents it). -/
structure SysState where
  requestQueue : List QueuedRequest
  isProcessingQueue : Bool
  workers : List WorkerPhase
deriving DecidableEq

/-- Invoking processQueue: a no-op when isProcessingQueue is set (the
guard runs synchronously, so test-and-set is atomic in the event loop);
otherwise the flag is set and a new worker loop starts. -/
def invokeProcessQueue (st : SysState) : SysState :=
  if st.isProcessingQueue then st
  else { st with isProcessingQueue := true,
                 workers := st.workers ++ [WorkerPhase.betweenCalls] }

/-- Interleaved transitions of the gateway: a caller submits (enqueue then
invoke processQueue), processQueue is invoked directly, a worker shifts
the head request and starts its upstream call, a finished call settles
or re-enqueues, and a worker that finds the queue empty clears the flag
and exits.  Every step's synchronous JavaScript section is one atomic
transition. -/
inductive SysStep : SysState → SysState → Prop where
  | submit (st : SysState) (req : QueuedRequest) :
      SysStep st (invokeProcessQueue
        { st with requestQueue := st.requestQueue ++ [req] })
  | invoke (st : SysState) :
      SysStep st (invokeProcessQueue st)
  | beginCall (st : SysState) (req : QueuedRequest) (rest : List QueuedRequest)
      (w1 w2 : List WorkerPhase) :
      st.workers = w1 ++ WorkerPhase.betweenCalls :: w2 →
      st.requestQueue = req :: rest →
      SysStep st { st with requestQueue := rest,
                           workers := w1 ++ WorkerPhase.inFlight req :: w2 }
  | finishCallSettle (st : SysState) (req : QueuedRequest)
      (w1 w2 : List WorkerPhase) :
      st.workers = w1 ++ WorkerPhase.inFlight req :: w2 →
      SysStep st { st with workers := w1 ++ WorkerPhase.betweenCalls :: w2 }
  | finishCallRequeue (st : SysState) (req : QueuedRequest)
      (w1 w2 : List WorkerPhase) :
      st.workers = w1 ++ WorkerPhase.inFlight req :: w2 →
      SysStep st { st with
        requestQueue := st.requestQueue ++
          [{ req with retryCount := req.retryCount + 1 }]
        workers := w1 ++ WorkerPhase.betweenCalls :: w2 }
  | exitLoop (st : SysState) (w1 w2 : List WorkerPhase) :
      st.workers = w1 ++ WorkerPhase.betweenCalls :: w2 →
      st.requestQueue = [] →
      SysStep st { st with workers := w1 ++ w2, isProcessingQueue := false }

/-- The gateway at process start: empty queue, flag clear, no worker. -/
def initialSys : SysState :=
  { requestQueue := [], isProcessingQueue := false, workers := [] }

/-- States reachable from the initial gateway state by interleaved steps. -/
inductive SysReachable : SysState → Prop where
  | init : SysReachable initialSys
  | step {st st2 : SysState} :
      SysReachable st → SysStep st st2 → SysReachable st2

/-- The number of upstream calls in flight: workers in the inFlight phase. -/
def inFlightCount (st : SysState) : Nat :=
  (st.workers.filter (fun w =>
    match w with
    | .inFlight _ => true
    | _ => false)).length

/-- The single-flight invariant: at most one worker loop exists, and the
flag is the loop's existence bit. -/
def workerInv (st : SysState) : Prop :=
  st.workers.length ≤ 1 ∧ (st.isProcessingQueue = false → st.workers = [])

/-- The rejected messages recorded for a given request, in order. -/
def rejectionsOf (rid : Nat) (evs : List TraceEvent) : List String :=
  evs.filterMap (fun ev =>
    match ev with
    | .settled r (.rejected msg) _ => if r = rid then some msg else none
    | _ => none)

/-- A well-formed response with one track result all of whose optional
fields are absent. -/
def emptyTrackResult : TrackResult :=
  { latestStatusDetail := none, dateAndTimes := none, scanEvents := none,
    associatedTrackingNumbers := none, packageDetails := none }

/-- A 2xx body carrying exactly one minimal track result. -/
def minimalTrackedData : ResponseData :=
  ⟨some ⟨some [⟨some [emptyTrackResult]⟩]⟩⟩

/-- A 2xx body with no matching record (output absent entirely). -/
def noRecordData : ResponseData := ⟨none⟩

/-- A queue holding one fresh request for the given number, service idle,
clock and lastRequestTime at zero. -/
def oneRequestState (trackingNumber : String) : GwState :=
  { requestQueue := [⟨trackingNumber, 0, 0, 0⟩],
    isProcessingQueue := false, lastRequestTime := 0, now := 0 }

/-- A queue holding requests A (id 0) then B (id 1), service idle. -/
def twoRequestState : GwState :=
  { requestQueue := [⟨"A", 0, 0, 0⟩, ⟨"B", 1, 0, 0⟩],
    isProcessingQueue := false, lastRequestTime := 0, now := 0 }

/-- An empty queue whose worker flag is set (a running worker loop). -/
def busyEmptyState : GwState :=
  { requestQueue := [], isProcessingQueue := true,
    lastRequestTime := 0, now := 0 }

/-- Upstream behavior: A is always rejected with HTTP 429, every other
number succeeds with the minimal body. -/
def headRateLimitedScript : UpstreamScript := fun trackingNumber _ =>
  if trackingNumber = "A" then .httpError rateLimit429
  else .httpOk minimalTrackedData

/-- Upstream behavior: every call is rejected with HTTP 429. -/
def alwaysRateLimitedScript : UpstreamScript := fun _ _ =>
  .httpError rateLimit429

/-- Upstream behavior: every call returns 2xx with no matching record. -/
def noRecordScript : UpstreamScript := fun _ _ => .httpOk noRecordData

/-- Upstream behavior: every call times out (ECONNABORTED). -/
def timeoutScript : UpstreamScript := fun _ _ => .httpError timeoutError

/-- Upstream behavior: authentication fails for A (getAccessToken throws),
every other number succeeds with the minimal body. -/
def authFailScript : UpstreamScript := fun trackingNumber _ =>
  if trackingNumber = "A" then .httpError authFailureError
  else .httpOk minimalTrackedData

/-- The full worker trace for A (always rate limited) queued before B. -/
def headRateLimitedTrace : List TraceEvent :=
  (processQueue headRateLimitedScript 12 twoRequestState).2

/-- The worker run on an always-rate-limited request, stopped right after
its third failed attempt. -/
def exhaustPartialRun : GwState × List TraceEvent :=
  runQueue alwaysRateLimitedScript 3 (oneRequestState "A")

/-- The completed worker run on an always-rate-limited request. -/
def exhaustFullRun : GwState × List TraceEvent :=
  runQueue alwaysRateLimitedScript 5 (oneRequestState "A")

/-- The worker trace for a request whose responses never match a record. -/
def noRecordTrace : List TraceEvent :=
  (processQueue noRecordScript 3 (oneRequestState "N")).2

/-- The worker trace for a request whose upstream call always times out. -/
def timeoutTrace : List TraceEvent :=
  (processQueue timeoutScript 3 (oneRequestState "T")).2

/-- The worker trace for A (auth always fails) queued before B. -/
def authFailTrace : List TraceEvent :=
  (processQueue authFailScript 5 twoRequestState).2

/-- The parse of the minimal body, as settled for request B. -/
def parsedMinimal : Option FedExTrackingInfo :=
  parseTrackingResponse "B" minimalTrackedData

/-- An empty token cache (service start: cachedToken null, tokenExpiry 0). -/
def emptyTokenCache : TokenCache :=
  { cachedToken := none, tokenExpiry := 0 }

/-- A mid-run state whose only queued request has already been retried
maxRetries times (retryCount 3). -/
def exhaustedRequestState : GwState :=
  { requestQueue := [⟨"A", 0, 3, 0⟩], isProcessingQueue := true,
    lastRequestTime := 0, now := 0 }

/-- A service whose environment lacks the API key. -/
def unconfiguredService : FedExConfig :=
  { apiKey := none, apiSecret := some "secret" }

end FedEx

namespace FedEx

/-- Invoking processQueue preserves the single-flight invariant: when the
flag is set the call is a no-op, and when it is clear no loop existed. -/
theorem workerInv_invoke {st : SysState} (hinv : workerInv st) :
    workerInv (invokeProcessQueue st) := by
  obtain ⟨hlen, hflag⟩ := hinv
  unfold invokeProcessQueue
  split
  · exact ⟨hlen, hflag⟩
  next hp =>
    have hw : st.workers = [] := hflag (by simpa using hp)
    exact ⟨by simp [hw], by simp⟩

/-- Every interleaved transition preserves the single-flight invariant. -/
theorem sysStep_workerInv {st st2 : SysState} (h : SysStep st st2)
    (hinv : workerInv st) : workerInv st2 := by
  obtain ⟨hlen, hflag⟩ := hinv
  cases h with
  | submit req => exact workerInv_invoke ⟨hlen, hflag⟩
  | invoke => exact workerInv_invoke ⟨hlen, hflag⟩
  | beginCall req rest w1 w2 hw hq =>
    rw [hw] at hlen
    simp only [List.length_append, List.length_cons] at hlen
    refine ⟨?_, fun hp => ?_⟩
    · simp only [List.length_append, List.length_cons]
      omega
    · have h0 := hflag (by simpa using hp)
      rw [hw] at h0
      simp at h0
  | finishCallSettle req w1 w2 hw =>
    rw [hw] at hlen
    simp only [List.length_append, List.length_cons] at hlen
    refine ⟨?_, fun hp => ?_⟩
    · simp only [List.length_append, List.length_cons]
      omega
    · have h0 := hflag (by simpa using hp)
      rw [hw] at h0
      simp at h0
  | finishCallRequeue req w1 w2 hw =>
    rw [hw] at hlen
    simp only [List.length_append, List.length_cons] at hlen
    refine ⟨?_, fun hp => ?_⟩
    · simp only [List.length_append, List.length_cons]
      omega
    · have h0 := hflag (by simpa using hp)
      rw [hw] at h0
      simp at h0
  | exitLoop w1 w2 hw hq =>
    rw [hw] at hlen
    simp only [List.length_append, List.length_cons] at hlen
    have h1 : w1.length = 0 := by omega
    have h2 : w2.length = 0 := by omega
    have e1 : w1 = [] := List.length_eq_zero.mp h1
    have e2 : w2 = [] := List.length_eq_zero.mp h2
    refine ⟨?_, fun _ => ?_⟩ <;> simp [e1, e2]

/-- The single-flight invariant holds in every reachable gateway state. -/
theorem sysReachable_workerInv {st : SysState} (h : SysReachable st) :
    workerInv st := by
  induction h with
  | init => exact ⟨by simp [initialSys], fun _ => rfl⟩
  | step h1 h2 ih => exact sysStep_workerInv h2 ih

/-- Claim C1: for every interleaving of concurrent getTrackingInfo
(submit) calls with worker activity, at most one worker loop exists —
hence at most one upstream tracking call is in flight at any instant —
and invoking processQueue while isProcessingQueue is set changes
nothing and produces no upstream call. -/
theorem c1_single_flight :
    (∀ st : SysState, SysReachable st →
      st.workers.length ≤ 1 ∧ inFlightCount st ≤ 1) ∧
    (∀ (script : UpstreamScript) (fuel : Nat) (st : GwState),
      st.isProcessingQueue = true →
      processQueue script fuel st = (st, [])) := by
  constructor
  · intro st h
    have hinv := sysReachable_workerInv h
    exact ⟨hinv.1, le_trans (List.length_filter_le _ _) hinv.1⟩
  · intro script fuel st h
    simp [processQueue, h]

/-- Witness for C1 at concrete states: the initial gateway state is
reachable and satisfies the bounds, and a processQueue invocation on a
busy state is a no-op. -/
theorem c1_single_flight_witness :
    (initialSys.workers.length ≤ 1 ∧ inFlightCount initialSys ≤ 1) ∧
    (busyEmptyState.isProcessingQueue = true ∧
      processQueue noRecordScript 3 busyEmptyState = (busyEmptyState, [])) :=
  ⟨c1_single_flight.1 initialSys SysReachable.init,
   by decide, c1_single_flight.2 noRecordScript 3 busyEmptyState (by decide)⟩

/-- rateLimit advances lastRequestTime by at least minRequestInterval,
leaves lastRequestTime equal to the advanced clock, and touches neither
the queue nor the flag. -/
theorem rateLimit_spec (q : List QueuedRequest) (p : Bool) (last now : Nat)
    (h : last ≤ now) :
    last + minRequestInterval ≤ (rateLimit ⟨q, p, last, now⟩).lastRequestTime ∧
    (rateLimit ⟨q, p, last, now⟩).lastRequestTime =
      (rateLimit ⟨q, p, last, now⟩).now ∧
    (rateLimit ⟨q, p, last, now⟩).requestQueue = q ∧
    (rateLimit ⟨q, p, last, now⟩).isProcessingQueue = p := by
  simp only [rateLimit, minRequestInterval]
  split
  next hlt => exact ⟨by dsimp only; omega, rfl, rfl, rfl⟩
  next hge => exact ⟨by dsimp only; omega, rfl, rfl, rfl⟩

/-- callTimes distributes over trace concatenation. -/
theorem callTimes_append (a b : List TraceEvent) :
    callTimes (a ++ b) = callTimes a ++ callTimes b :=
  List.filterMap_append a b _

/-- One worker iteration on a non-empty queue makes exactly one upstream
call, at the new lastRequestTime, which is at least minRequestInterval
after the previous one and never ahead of the clock. -/
theorem stepQueue_spacing (script : UpstreamScript) (st : GwState)
    (req : QueuedRequest) (rest : List QueuedRequest)
    (hq : st.requestQueue = req :: rest) (h : st.lastRequestTime ≤ st.now) :
    callTimes (stepQueue script st).2 =
      [(stepQueue script st).1.lastRequestTime] ∧
    st.lastRequestTime + minRequestInterval ≤
      (stepQueue script st).1.lastRequestTime ∧
    (stepQueue script st).1.lastRequestTime ≤ (stepQueue script st).1.now := by
  obtain ⟨hr1, hr2, hr3, hr4⟩ :=
    rateLimit_spec rest st.isProcessingQueue st.lastRequestTime st.now h
  simp only [stepQueue, hq]
  split
  · refine ⟨?_, ?_, ?_⟩ <;> simp [callTimes] <;> omega
  · split
    · split
      · refine ⟨?_, ?_, ?_⟩ <;> simp [callTimes] <;> omega
      · refine ⟨?_, ?_, ?_⟩ <;> simp [callTimes] <;> omega
    · refine ⟨?_, ?_, ?_⟩ <;> simp [callTimes] <;> omega

/-- Along any worker-loop run that starts with the clock not behind
lastRequestTime, every upstream call starts at least minRequestInterval
after the recorded previous call, and successive calls are spaced by at
least minRequestInterval. -/
theorem runQueue_spacing (script : UpstreamScript) :
    ∀ (fuel : Nat) (st : GwState), st.lastRequestTime ≤ st.now →
      (∀ t ∈ callTimes (runQueue script fuel st).2,
        st.lastRequestTime + minRequestInterval ≤ t) ∧
      List.Chain' (fun t1 t2 => t1 + minRequestInterval ≤ t2)
        (callTimes (runQueue script fuel st).2) := by
  intro fuel
  induction fuel with
  | zero =>
    intro st h
    simp [runQueue, callTimes]
  | succ n ih =>
    intro st h
    rcases hq : st.requestQueue with _ | ⟨req, rest⟩
    · simp [runQueue, hq, callTimes]
    · have hstep := stepQueue_spacing script st req rest hq h
      have hrec := ih (stepQueue script st).1 hstep.2.2
      have hrw : (runQueue script (n + 1) st).2 =
          (stepQueue script st).2 ++ (runQueue script n (stepQueue script st).1).2 := by
        simp only [runQueue, hq]
      rw [hrw, callTimes_append, hstep.1]
      constructor
      · intro t ht
        rcases List.mem_append.mp ht with h1 | h2
        · have : t = (stepQueue script st).1.lastRequestTime := by simpa using h1
          omega
        · have := hrec.1 t h2
          omega
      · rw [List.singleton_append]
        refine List.chain'_cons'.mpr ⟨?_, hrec.2⟩
        intro y hy
        have hmem : y ∈ callTimes (runQueue script n (stepQueue script st).1).2 :=
          List.mem_of_mem_head? hy
        exact hrec.1 y hmem

/-- Claim C4: the starts of successive upstream calls of a worker run are
spaced by at least minRequestInterval (2000 ms): the rate limiter
suspends the worker until the interval since the previous call start has
elapsed.  Stated for the bare worker loop and for a processQueue
invocation. -/
theorem c4_min_spacing (script : UpstreamScript) (fuel : Nat) (st : GwState)
    (h : st.lastRequestTime ≤ st.now) :
    List.Chain' (fun t1 t2 => t1 + minRequestInterval ≤ t2)
      (callTimes (runQueue script fuel st).2) ∧
    List.Chain' (fun t1 t2 => t1 + minRequestInterval ≤ t2)
      (callTimes (processQueue script fuel st).2) := by
  refine ⟨(runQueue_spacing script fuel st h).2, ?_⟩
  by_cases hp : st.isProcessingQueue = true
  · unfold processQueue
    rw [if_pos hp]
    simp [callTimes]
  · unfold processQueue
    rw [if_neg hp]
    exact (runQueue_spacing script fuel { st with isProcessingQueue := true } h).2

/-- Witness for C4 on the concrete two-request scenario whose call times
are 2000, 32000, 34000, 94000, 214000. -/
theorem c4_min_spacing_witness :
    twoRequestState.lastRequestTime ≤ twoRequestState.now ∧
    (List.Chain' (fun t1 t2 => t1 + minRequestInterval ≤ t2)
      (callTimes (runQueue headRateLimitedScript 12 twoRequestState).2) ∧
    List.Chain' (fun t1 t2 => t1 + minRequestInterval ≤ t2)
      (callTimes (processQueue headRateLimitedScript 12 twoRequestState).2)) :=
  ⟨by decide, c4_min_spacing headRateLimitedScript 12 twoRequestState (by decide)⟩

/-- fetchTrackingInfo only rethrows rate-limit errors: whatever it throws
satisfies isRateLimitError. -/
theorem fetch_error_is_rate_limit {trackingNumber : String}
    {outcome : UpstreamOutcome} {e : JsError}
    (h : fetchTrackingInfo trackingNumber outcome = .error e) :
    isRateLimitError e = true := by
  cases outcome with
  | httpOk data => simp [fetchTrackingInfo] at h
  | httpError e2 =>
    by_cases hrl : isRateLimitError e2 = true
    · simp only [fetchTrackingInfo, hrl, eq_self_iff_true, if_true] at h
      cases h
      exact hrl
    · simp [fetchTrackingInfo, hrl] at h

/-- A worker iteration whose fetch returns a value settles the head
request by resolving and leaves the rest of the queue in place. -/
theorem stepQueue_ok (script : UpstreamScript) (st : GwState)
    (request : QueuedRequest) (rest : List QueuedRequest)
    (result : Option FedExTrackingInfo)
    (hq : st.requestQueue = request :: rest)
    (hf : fetchTrackingInfo request.trackingNumber
      (script request.trackingNumber request.retryCount) = .ok result) :
    stepQueue script st =
      (rateLimit { st with requestQueue := rest },
       [TraceEvent.upstreamCall request.requestId request.trackingNumber
          request.retryCount (rateLimit { st with requestQueue := rest }).now,
        TraceEvent.settled request.requestId (.resolved result)
          (rateLimit { st with requestQueue := rest }).now]) := by
  simp only [stepQueue, hq, hf]

/-- A worker iteration whose fetch throws a rate-limit error while
retries remain sleeps the backoff delay and re-enqueues the request at
the tail with retryCount incremented. -/
theorem stepQueue_requeue (script : UpstreamScript) (st : GwState)
    (request : QueuedRequest) (rest : List QueuedRequest) (e : JsError)
    (hq : st.requestQueue = request :: rest)
    (hf : fetchTrackingInfo request.trackingNumber
      (script request.trackingNumber request.retryCount) = .error e)
    (hrc : request.retryCount < maxRetries) :
    stepQueue script st =
      ({ rateLimit { st with requestQueue := rest } with
          now := (rateLimit { st with requestQueue := rest }).now +
            retryDelays.getD request.retryCount 0
          requestQueue := rest ++
            [{ request with retryCount := request.retryCount + 1 }] },
       [TraceEvent.upstreamCall request.requestId request.trackingNumber
          request.retryCount (rateLimit { st with requestQueue := rest }).now,
        TraceEvent.requeued request.requestId (request.retryCount + 1)
          ((rateLimit { st with requestQueue := rest }).now +
            retryDelays.getD request.retryCount 0)]) := by
  have hrl : isRateLimitError e = true := fetch_error_is_rate_limit hf
  simp only [stepQueue, hq, hf]
  rw [if_pos hrl, if_pos hrc]

/-- A worker iteration whose fetch throws a rate-limit error with no
retries left rejects the head request with the terminal message. -/
theorem stepQueue_exhausted (script : UpstreamScript) (st : GwState)
    (request : QueuedRequest) (rest : List QueuedRequest) (e : JsError)
    (hq : st.requestQueue = request :: rest)
    (hf : fetchTrackingInfo request.trackingNumber
      (script request.trackingNumber request.retryCount) = .error e)
    (hrc : ¬ request.retryCount < maxRetries) :
    stepQueue script st =
      (rateLimit { st with requestQueue := rest },
       [TraceEvent.upstreamCall request.requestId request.trackingNumber
          request.retryCount (rateLimit { st with requestQueue := rest }).now,
        TraceEvent.settled request.requestId
          (.rejected "Rate limit exceeded after max retries")
          (rateLimit { st with requestQueue := rest }).now]) := by
  have hrl : isRateLimitError e = true := fetch_error_is_rate_limit hf
  simp only [stepQueue, hq, hf]
  rw [if_pos hrl, if_neg hrc]

/-- Claim C2 as stated is false on the code: with A always rate limited
ahead of B, A fails its first call at t = 2000 and its 30000 ms backoff
is slept by the worker itself, so A is re-enqueued only at t = 32000 and
no upstream call of any other request happens in the open interval
(2000, 32000) — B, behind A the whole time, is dequeued and called only
at t = 32000, the moment the backoff ends, not while it elapses. -/
theorem c2_counterexample :
    callTimesOf 0 headRateLimitedTrace = [2000, 34000, 94000, 214000] ∧
    requeueTimesOf 0 headRateLimitedTrace = [32000, 94000, 214000] ∧
    callTimesOf 1 headRateLimitedTrace = [32000] ∧
    ((callTimes headRateLimitedTrace).filter
      (fun t => decide (2000 < t) && decide (t < 32000))) = [] := by
  decide

/-- Claim C2 (amended): when the head request fails with a retryable
error and has attempts remaining, the worker first sleeps the full
backoff delay — during which no other pending request is dequeued — and
only then re-enqueues the request at the tail; from that point the
requests that were behind it are processed before its retry. -/
theorem c2_requeue_after_backoff (script : UpstreamScript) (st : GwState)
    (request : QueuedRequest) (rest : List QueuedRequest) (e : JsError)
    (hq : st.requestQueue = request :: rest)
    (hf : fetchTrackingInfo request.trackingNumber
      (script request.trackingNumber request.retryCount) = .error e)
    (hrc : request.retryCount < maxRetries) :
    (stepQueue script st).1.requestQueue =
      rest ++ [{ request with retryCount := request.retryCount + 1 }] ∧
    (stepQueue script st).1.now =
      (rateLimit { st with requestQueue := rest }).now +
        retryDelays.getD request.retryCount 0 ∧
    (stepQueue script st).2 =
      [TraceEvent.upstreamCall request.requestId request.trackingNumber
         request.retryCount (rateLimit { st with requestQueue := rest }).now,
       TraceEvent.requeued request.requestId (request.retryCount + 1)
         ((rateLimit { st with requestQueue := rest }).now +
           retryDelays.getD request.retryCount 0)] := by
  rw [stepQueue_requeue script st request rest e hq hf hrc]
  exact ⟨rfl, rfl, rfl⟩

/-- Witness for the amended C2 on the always-rate-limited request A: its
first call happens at t = 2000 and it is re-enqueued at the tail at
t = 32000, after the full 30000 ms backoff. -/
theorem c2_requeue_after_backoff_witness :
    ((oneRequestState "A").requestQueue = [⟨"A", 0, 0, 0⟩] ∧
     fetchTrackingInfo "A" (alwaysRateLimitedScript "A" 0) =
       Except.error rateLimit429 ∧
     (0 : Nat) < maxRetries) ∧
    ((stepQueue alwaysRateLimitedScript (oneRequestState "A")).1.requestQueue =
       [⟨"A", 0, 1, 0⟩] ∧
     (stepQueue alwaysRateLimitedScript (oneRequestState "A")).1.now = 32000 ∧
     (stepQueue alwaysRateLimitedScript (oneRequestState "A")).2 =
       [TraceEvent.upstreamCall 0 "A" 0 2000,
        TraceEvent.requeued 0 1 32000]) :=
  ⟨⟨rfl, by decide, by decide⟩,
   c2_requeue_after_backoff alwaysRateLimitedScript (oneRequestState "A")
     ⟨"A", 0, 0, 0⟩ [] rateLimit429 rfl (by decide) (by decide)⟩

/-- rateLimit never touches the queue or the worker flag. -/
theorem rateLimit_queue (st : GwState) :
    (rateLimit st).requestQueue = st.requestQueue ∧
    (rateLimit st).isProcessingQueue = st.isProcessingQueue := by
  simp only [rateLimit]
  split <;> exact ⟨rfl, rfl⟩

/-- Claim C3 as stated is false on the code: a request that has failed
with a rate-limit error exactly maxRetries = 3 times is not settled —
it sits in the queue with retryCount 3 and receives a fourth upstream
call (at t = 212000), and only that fourth failure produces the
terminal rejection. -/
theorem c3_counterexample :
    (exhaustPartialRun.1.requestQueue = [⟨"A", 0, 3, 0⟩] ∧
     settlementsOf 0 exhaustPartialRun.2 = [] ∧
     callTimesOf 0 exhaustPartialRun.2 = [2000, 32000, 92000]) ∧
    (callTimesOf 0 exhaustFullRun.2 = [2000, 32000, 92000, 212000] ∧
     settlementsOf 0 exhaustFullRun.2 =
       [Settlement.rejected "Rate limit exceeded after max retries"]) := by
  decide

/-- Claim C3 (amended): retryCount never exceeds maxRetries = 3; a
request that fails retryably while retryCount = maxRetries (its fourth
failure) is rejected with the terminal message and not re-enqueued; the
worker loop either settles or re-enqueues every request it dequeues —
clearQueue, however, empties the queue without settling anything. -/
theorem c3_retry_ceiling :
    (∀ (script : UpstreamScript) (st : GwState),
      (∀ r ∈ st.requestQueue, r.retryCount ≤ maxRetries) →
      ∀ r ∈ (stepQueue script st).1.requestQueue, r.retryCount ≤ maxRetries) ∧
    (∀ (script : UpstreamScript) (st : GwState) (request : QueuedRequest)
        (rest : List QueuedRequest) (e : JsError),
      st.requestQueue = request :: rest →
      fetchTrackingInfo request.trackingNumber
        (script request.trackingNumber request.retryCount) = .error e →
      request.retryCount = maxRetries →
      (stepQueue script st).1.requestQueue = rest ∧
      settlementsOf request.requestId (stepQueue script st).2 =
        [Settlement.rejected "Rate limit exceeded after max retries"] ∧
      requeueTimesOf request.requestId (stepQueue script st).2 = []) ∧
    (∀ (script : UpstreamScript) (st : GwState) (request : QueuedRequest)
        (rest : List QueuedRequest),
      st.requestQueue = request :: rest →
      settlementsOf request.requestId (stepQueue script st).2 ≠ [] ∨
      (stepQueue script st).1.requestQueue =
        rest ++ [{ request with retryCount := request.retryCount + 1 }]) ∧
    (∀ st : GwState, clearQueue st = { st with requestQueue := [] }) := by
  refine ⟨?_, ?_, ?_, fun st => rfl⟩
  · intro script st hall r hr
    rcases hq : st.requestQueue with _ | ⟨req, rest⟩
    · simp only [stepQueue, hq] at hr
      exact absurd hr (List.not_mem_nil r)
    · have hall2 : ∀ x ∈ rest, x.retryCount ≤ maxRetries := fun x hx =>
        hall x (by rw [hq]; exact List.mem_cons_of_mem _ hx)
      have hreq : req.retryCount ≤ maxRetries :=
        hall req (by rw [hq]; exact List.mem_cons_self _ _)
      rcases hf : fetchTrackingInfo req.trackingNumber
          (script req.trackingNumber req.retryCount) with e | res
      · by_cases hrc : req.retryCount < maxRetries
        · rw [stepQueue_requeue script st req rest e hq hf hrc] at hr
          dsimp only at hr
          rcases List.mem_append.mp hr with h1 | h2
          · exact hall2 r h1
          · have h3 : r = { req with retryCount := req.retryCount + 1 } := by
              simpa using h2
            rw [h3]
            dsimp only
            omega
        · rw [stepQueue_exhausted script st req rest e hq hf hrc] at hr
          dsimp only at hr
          rw [(rateLimit_queue _).1] at hr
          exact hall2 r hr
      · rw [stepQueue_ok script st req rest res hq hf] at hr
        dsimp only at hr
        rw [(rateLimit_queue _).1] at hr
        exact hall2 r hr
  · intro script st request rest e hq hf hmax
    have hrc : ¬ request.retryCount < maxRetries := by omega
    rw [stepQueue_exhausted script st request rest e hq hf hrc]
    refine ⟨?_, ?_, ?_⟩
    · dsimp only
      rw [(rateLimit_queue _).1]
    · simp [settlementsOf]
    · simp [requeueTimesOf]
  · intro script st request rest hq
    rcases hf : fetchTrackingInfo request.trackingNumber
        (script request.trackingNumber request.retryCount) with e | res
    · by_cases hrc : request.retryCount < maxRetries
      · right
        rw [stepQueue_requeue script st request rest e hq hf hrc]
      · left
        rw [stepQueue_exhausted script st request rest e hq hf hrc]
        simp [settlementsOf]
    · left
      rw [stepQueue_ok script st request rest res hq hf]
      simp [settlementsOf]

/-- Witness for the amended C3 at concrete inputs: the re-enqueued
request carries retryCount 1 ≤ 3, and the request already at
retryCount 3 is rejected terminally and not re-enqueued. -/
theorem c3_retry_ceiling_witness :
    ((⟨"A", 0, 1, 0⟩ : QueuedRequest).retryCount ≤ maxRetries) ∧
    ((stepQueue alwaysRateLimitedScript exhaustedRequestState).1.requestQueue
        = [] ∧
     settlementsOf 0 (stepQueue alwaysRateLimitedScript
        exhaustedRequestState).2 =
       [Settlement.rejected "Rate limit exceeded after max retries"] ∧
     requeueTimesOf 0 (stepQueue alwaysRateLimitedScript
        exhaustedRequestState).2 = []) ∧
    (settlementsOf 0 (stepQueue alwaysRateLimitedScript
        (oneRequestState "A")).2 ≠ [] ∨
     (stepQueue alwaysRateLimitedScript (oneRequestState "A")).1.requestQueue
        = [] ++ [⟨"A", 0, 1, 0⟩]) ∧
    clearQueue (oneRequestState "A") =
      { oneRequestState "A" with requestQueue := [] } :=
  ⟨c3_retry_ceiling.1 alwaysRateLimitedScript (oneRequestState "A")
      (by decide) ⟨"A", 0, 1, 0⟩ (by decide),
   c3_retry_ceiling.2.1 alwaysRateLimitedScript exhaustedRequestState
      ⟨"A", 0, 3, 0⟩ [] rateLimit429 rfl (by decide) (by decide),
   c3_retry_ceiling.2.2.1 alwaysRateLimitedScript (oneRequestState "A")
      ⟨"A", 0, 0, 0⟩ [] rfl,
   c3_retry_ceiling.2.2.2 (oneRequestState "A")⟩

/-- Claim C5: a request whose 2xx response has no matching record is
settled on its first pass — resolve(null), this code's NotFound
encoding — with exactly one upstream call, no rejection (in particular
not the RetriesExhausted one) and no re-enqueue; the concrete full run
of such a request makes exactly one call in total. -/
theorem c5_notfound_single_call :
    (∀ (script : UpstreamScript) (st : GwState) (request : QueuedRequest)
        (rest : List QueuedRequest) (data : ResponseData),
      st.requestQueue = request :: rest →
      script request.trackingNumber request.retryCount = .httpOk data →
      parseTrackingResponse request.trackingNumber data = none →
      (stepQueue script st).1.requestQueue = rest ∧
      settlementsOf request.requestId (stepQueue script st).2 =
        [Settlement.resolved none] ∧
      rejectionsOf request.requestId (stepQueue script st).2 = [] ∧
      (callTimesOf request.requestId (stepQueue script st).2).length = 1 ∧
      requeueTimesOf request.requestId (stepQueue script st).2 = []) ∧
    (parseTrackingResponse "N" noRecordData = none ∧
     (callTimesOf 0 noRecordTrace).length = 1 ∧
     settlementsOf 0 noRecordTrace = [Settlement.resolved none] ∧
     rejectionsOf 0 noRecordTrace = [] ∧
     requeueTimesOf 0 noRecordTrace = []) := by
  constructor
  · intro script st request rest data hq hout hparse
    have hf : fetchTrackingInfo request.trackingNumber
        (script request.trackingNumber request.retryCount) = .ok none := by
      rw [hout]
      simp [fetchTrackingInfo, hparse]
    rw [stepQueue_ok script st request rest none hq hf]
    refine ⟨?_, by simp [settlementsOf], by simp [rejectionsOf],
      by simp [callTimesOf], by simp [requeueTimesOf]⟩
    dsimp only
    rw [(rateLimit_queue _).1]
  · decide

/-- Witness for C5 at the concrete no-record scenario. -/
theorem c5_notfound_single_call_witness :
    ((oneRequestState "N").requestQueue = [⟨"N", 0, 0, 0⟩] ∧
     noRecordScript "N" 0 = UpstreamOutcome.httpOk noRecordData ∧
     parseTrackingResponse "N" noRecordData = none) ∧
    ((stepQueue noRecordScript (oneRequestState "N")).1.requestQueue = [] ∧
     settlementsOf 0 (stepQueue noRecordScript (oneRequestState "N")).2 =
       [Settlement.resolved none] ∧
     rejectionsOf 0 (stepQueue noRecordScript (oneRequestState "N")).2 = [] ∧
     (callTimesOf 0 (stepQueue noRecordScript (oneRequestState "N")).2).length
        = 1 ∧
     requeueTimesOf 0 (stepQueue noRecordScript (oneRequestState "N")).2 = []) :=
  ⟨⟨rfl, rfl, by decide⟩,
   c5_notfound_single_call.1 noRecordScript (oneRequestState "N")
     ⟨"N", 0, 0, 0⟩ [] noRecordData rfl rfl (by decide)⟩

/-- Claim C6 is false on the code: a timeout (ECONNABORTED) is not
treated as retryable — fetchTrackingInfo swallows it and returns null,
so the timed-out request is resolved with null after exactly one
upstream call, with no re-enqueue and no backoff. -/
theorem c6_counterexample :
    isRateLimitError timeoutError = false ∧
    fetchTrackingInfo "T" (UpstreamOutcome.httpError timeoutError) =
      Except.ok none ∧
    (callTimesOf 0 timeoutTrace).length = 1 ∧
    settlementsOf 0 timeoutTrace = [Settlement.resolved none] ∧
    requeueTimesOf 0 timeoutTrace = [] := by
  decide

/-- Claim C6 (amended): a request whose upstream call fails with any
non-rate-limit error — a timeout included — is settled at once by
resolving with null: one upstream call, no re-enqueue, no backoff delay
added to the clock. -/
theorem c6_timeout_not_retried (script : UpstreamScript) (st : GwState)
    (request : QueuedRequest) (rest : List QueuedRequest) (e : JsError)
    (hq : st.requestQueue = request :: rest)
    (hout : script request.trackingNumber request.retryCount = .httpError e)
    (hrl : isRateLimitError e = false) :
    (stepQueue script st).1.requestQueue = rest ∧
    settlementsOf request.requestId (stepQueue script st).2 =
      [Settlement.resolved none] ∧
    requeueTimesOf request.requestId (stepQueue script st).2 = [] ∧
    (stepQueue script st).1.now =
      (rateLimit { st with requestQueue := rest }).now := by
  have hf : fetchTrackingInfo request.trackingNumber
      (script request.trackingNumber request.retryCount) = .ok none := by
    rw [hout]
    simp [fetchTrackingInfo, hrl]
  rw [stepQueue_ok script st request rest none hq hf]
  refine ⟨?_, by simp [settlementsOf], by simp [requeueTimesOf], rfl⟩
  dsimp only
  rw [(rateLimit_queue _).1]

/-- Witness for the amended C6 at the concrete timeout scenario. -/
theorem c6_timeout_not_retried_witness :
    ((oneRequestState "T").requestQueue = [⟨"T", 0, 0, 0⟩] ∧
     timeoutScript "T" 0 = UpstreamOutcome.httpError timeoutError ∧
     isRateLimitError timeoutError = false) ∧
    ((stepQueue timeoutScript (oneRequestState "T")).1.requestQueue = [] ∧
     settlementsOf 0 (stepQueue timeoutScript (oneRequestState "T")).2 =
       [Settlement.resolved none] ∧
     requeueTimesOf 0 (stepQueue timeoutScript (oneRequestState "T")).2 = [] ∧
     (stepQueue timeoutScript (oneRequestState "T")).1.now = 2000) :=
  ⟨⟨rfl, rfl, by decide⟩,
   c6_timeout_not_retried timeoutScript (oneRequestState "T")
     ⟨"T", 0, 0, 0⟩ [] timeoutError rfl rfl (by decide)⟩

/-- Claim C7 is false on the code: when authentication fails, the error
getAccessToken throws is caught inside fetchTrackingInfo and swallowed
into null — the caller's promise is resolved with null, no rejection
(no AuthenticationError) reaches the caller; the request is not
retried, and the queue keeps processing (B still succeeds). -/
theorem c7_counterexample :
    isRateLimitError authFailureError = false ∧
    fetchTrackingInfo "A" (UpstreamOutcome.httpError authFailureError) =
      Except.ok none ∧
    settlementsOf 0 authFailTrace = [Settlement.resolved none] ∧
    rejectionsOf 0 authFailTrace = [] ∧
    requeueTimesOf 0 authFailTrace = [] ∧
    (callTimesOf 0 authFailTrace).length = 1 ∧
    settlementsOf 1 authFailTrace = [Settlement.resolved parsedMinimal] ∧
    parsedMinimal.isSome = true := by
  decide

/-- Claim C7 (amended): an authentication failure is swallowed inside
fetchTrackingInfo: the request is settled by resolving with null (not a
surfaced typed error), it is not retried, and the gateway state stays
usable — the rest of the queue and the worker flag are untouched, so
subsequent requests are processed normally. -/
theorem c7_auth_failure_swallowed (script : UpstreamScript) (st : GwState)
    (request : QueuedRequest) (rest : List QueuedRequest)
    (hq : st.requestQueue = request :: rest)
    (hout : script request.trackingNumber request.retryCount =
      .httpError authFailureError) :
    (stepQueue script st).1.requestQueue = rest ∧
    settlementsOf request.requestId (stepQueue script st).2 =
      [Settlement.resolved none] ∧
    rejectionsOf request.requestId (stepQueue script st).2 = [] ∧
    requeueTimesOf request.requestId (stepQueue script st).2 = [] ∧
    (stepQueue script st).1.isProcessingQueue = st.isProcessingQueue := by
  have hrl : isRateLimitError authFailureError = false := by decide
  have hf : fetchTrackingInfo request.trackingNumber
      (script request.trackingNumber request.retryCount) = .ok none := by
    rw [hout]
    simp [fetchTrackingInfo, hrl]
  rw [stepQueue_ok script st request rest none hq hf]
  refine ⟨?_, by simp [settlementsOf], by simp [rejectionsOf],
    by simp [requeueTimesOf], ?_⟩
  · dsimp only
    rw [(rateLimit_queue _).1]
  · dsimp only
    exact (rateLimit_queue _).2

/-- Witness for the amended C7: A's auth always fails ahead of B. -/
theorem c7_auth_failure_swallowed_witness :
    (twoRequestState.requestQueue = [⟨"A", 0, 0, 0⟩, ⟨"B", 1, 0, 0⟩] ∧
     authFailScript "A" 0 = UpstreamOutcome.httpError authFailureError) ∧
    ((stepQueue authFailScript twoRequestState).1.requestQueue =
       [⟨"B", 1, 0, 0⟩] ∧
     settlementsOf 0 (stepQueue authFailScript twoRequestState).2 =
       [Settlement.resolved none] ∧
     rejectionsOf 0 (stepQueue authFailScript twoRequestState).2 = [] ∧
     requeueTimesOf 0 (stepQueue authFailScript twoRequestState).2 = [] ∧
     (stepQueue authFailScript twoRequestState).1.isProcessingQueue =
       twoRequestState.isProcessingQueue) :=
  ⟨⟨rfl, rfl⟩,
   c7_auth_failure_swallowed authFailScript twoRequestState
     ⟨"A", 0, 0, 0⟩ [⟨"B", 1, 0, 0⟩] rfl rfl⟩

/-- Claim C8: starting from an empty cache, the first getAccessToken call
at t1 hits the auth endpoint and caches the token with expiry
t1 + 50 minutes (the issued 60-minute lifetime minus the safety
margin); a second call strictly before the expiry returns the cached
token without calling the endpoint — so two lookups inside the window
cost at most one auth call — while a second call at or past the expiry
calls the endpoint again, for two calls in total. -/
theorem c8_token_cache (t1 t2 : Nat) (tok : String)
    (outcome2 : AuthOutcome) (htok : tok.isEmpty = false) :
    (getAccessToken true t1 emptyTokenCache (.ok (some tok))).authEndpointCalled
      = true ∧
    (getAccessToken true t1 emptyTokenCache (.ok (some tok))).cache =
      { cachedToken := some tok, tokenExpiry := t1 + tokenCacheDuration } ∧
    (t2 < t1 + tokenCacheDuration →
      (getAccessToken true t2
        (getAccessToken true t1 emptyTokenCache (.ok (some tok))).cache
        outcome2).authEndpointCalled = false ∧
      (getAccessToken true t2
        (getAccessToken true t1 emptyTokenCache (.ok (some tok))).cache
        outcome2).token = Except.ok tok) ∧
    (t1 + tokenCacheDuration ≤ t2 →
      (getAccessToken true t2
        (getAccessToken true t1 emptyTokenCache (.ok (some tok))).cache
        outcome2).authEndpointCalled = true) := by
  have h1 : getAccessToken true t1 emptyTokenCache (.ok (some tok)) =
      { token := .ok tok
        cache := { cachedToken := some tok,
                   tokenExpiry := t1 + tokenCacheDuration }
        authEndpointCalled := true } := by
    simp [getAccessToken, emptyTokenCache, jsTruthy, htok]
  rw [h1]
  dsimp only
  refine ⟨rfl, rfl, fun hlt => ⟨?_, ?_⟩, fun hge => ?_⟩
  · simp [getAccessToken, jsTruthy, htok, hlt]
  · simp [getAccessToken, jsTruthy, htok, hlt]
  · have hnlt : ¬ t2 < t1 + tokenCacheDuration := by omega
    cases outcome2 with
    | ok accessToken =>
      simp [getAccessToken, jsTruthy, htok, hnlt, apply_ite]
    | httpError e =>
      simp [getAccessToken, jsTruthy, htok, hnlt]

/-- Witness for C8 with the token obtained at t = 0 and reuse at t = 1
versus refresh at the 50-minute boundary. -/
theorem c8_token_cache_witness :
    ("T".isEmpty = false) ∧
    ((getAccessToken true 0 emptyTokenCache (.ok (some "T"))).authEndpointCalled
        = true ∧
     (getAccessToken true 0 emptyTokenCache (.ok (some "T"))).cache =
       { cachedToken := some "T", tokenExpiry := 0 + tokenCacheDuration } ∧
     ((1 : Nat) < 0 + tokenCacheDuration →
       (getAccessToken true 1
         (getAccessToken true 0 emptyTokenCache (.ok (some "T"))).cache
         (.ok (some "T2"))).authEndpointCalled = false ∧
       (getAccessToken true 1
         (getAccessToken true 0 emptyTokenCache (.ok (some "T"))).cache
         (.ok (some "T2"))).token = Except.ok "T") ∧
     (0 + tokenCacheDuration ≤ 1 →
       (getAccessToken true 1
         (getAccessToken true 0 emptyTokenCache (.ok (some "T"))).cache
         (.ok (some "T2"))).authEndpointCalled = true)) :=
  ⟨by decide, c8_token_cache 0 1 "T" (.ok (some "T2")) (by decide)⟩

/-- Claim C9: parsing the upstream body is total with graceful defaults
at every level of nesting — a missing output, completeTrackResults,
first entry, trackResults list, or first track result yields none (the
JS null), and once a first track result exists the parse always
succeeds, defaulting the status to pending, the estimated delivery to
absent, locations to the empty string, and the event list to empty. -/
theorem c9_parse_graceful (tn : String) :
    parseTrackingResponse tn ⟨none⟩ = none ∧
    parseTrackingResponse tn ⟨some ⟨none⟩⟩ = none ∧
    parseTrackingResponse tn ⟨some ⟨some []⟩⟩ = none ∧
    parseTrackingResponse tn ⟨some ⟨some [⟨none⟩]⟩⟩ = none ∧
    parseTrackingResponse tn ⟨some ⟨some [⟨some []⟩]⟩⟩ = none ∧
    (∀ tr : TrackResult, ∃ info : FedExTrackingInfo,
      parseTrackingResponse tn ⟨some ⟨some [⟨some [tr]⟩]⟩⟩ = some info ∧
      (tr.latestStatusDetail = none →
        info.status = "pending" ∧ info.lastLocation = "") ∧
      (tr.dateAndTimes = none → info.estimatedDelivery = none) ∧
      (tr.scanEvents = none → info.events = [])) ∧
    formatLocation none = "" ∧
    mapFedExStatus none = "pending" ∧
    (∀ ev : ScanEvent, ev.scanLocation = none →
      formatLocation ev.scanLocation = "") := by
  refine ⟨rfl, rfl, rfl, rfl, rfl, ?_, rfl, rfl, ?_⟩
  · intro tr
    refine ⟨_, rfl, fun h => ⟨?_, ?_⟩, fun h => ?_, fun h => ?_⟩
    · simp [parseTrackingResponse, h, mapFedExStatus]
    · simp [parseTrackingResponse, h, formatLocation]
    · simp [parseTrackingResponse, h]
    · simp [parseTrackingResponse, h]
  · intro ev h
    rw [h]
    rfl

/-- Claim C10: when the API key or secret is missing from the
environment the service is unconfigured, and getTrackingInfo resolves
immediately with null: nothing is enqueued, no worker loop starts, no
upstream or auth call happens, and the state is returned unchanged. -/
theorem c10_unconfigured_noop (cfg : FedExConfig) (script : UpstreamScript)
    (fuel : Nat) (trackingNumber : String) (requestId : Nat) (st : GwState)
    (h : cfg.apiKey = none ∨ cfg.apiSecret = none) :
    isConfigured cfg = false ∧
    getTrackingInfo cfg script fuel trackingNumber requestId st =
      (SubmitResult.immediateNull, st, []) := by
  have hc : isConfigured cfg = false := by
    rcases h with h | h <;> simp [isConfigured, jsTruthy, h]
  exact ⟨hc, by simp [getTrackingInfo, hc]⟩

/-- Witness for C10 on a service missing its API key. -/
theorem c10_unconfigured_noop_witness :
    (unconfiguredService.apiKey = none ∨
      unconfiguredService.apiSecret = none) ∧
    (isConfigured unconfiguredService = false ∧
     getTrackingInfo unconfiguredService noRecordScript 3 "123456789012" 0
       (oneRequestState "X") =
       (SubmitResult.immediateNull, oneRequestState "X", [])) :=
  ⟨Or.inl rfl,
   c10_unconfigured_noop unconfiguredService noRecordScript 3 "123456789012" 0
     (oneRequestState "X") (Or.inl rfl)⟩

end FedEx
